import Mathlib

/-!
Verification development for the fixed-wing figure-eight loiter pattern helper
(`FigureEight.cpp`, module `fw_pos_control_l1/figure_eight`).

Embedding conventions:
* `float` values are modelled as exact rationals (`ℚ`); a non-finite float
  (NaN/Inf) cannot be a rational, so each radius field of the parameter record
  additionally carries a Boolean recording the outcome of `PX4_ISFINITE` on
  the original float.  The rational value of a non-finite field is junk and is
  never read before the sanitizer replaces it.
* The delegate guidance capabilities (`NPFG`, `ECL_L1_Pos_Controller`), the
  parameter store (`NAV_LOITER_RAD`), the airspeed-conversion factor and the
  `cmath` functions `sqrtf`/`cosf`/`sinf` are external to this file's source;
  they are collected in an `Env` record of abstract functions and constants.
* Calls into the delegate's `navigateLoiter` / `navigate_loiter` and
  `navigateWaypoints` / `navigate_waypoints` operations are recorded in an
  output list of `NavCall` values so that "makes no navigate call" is a
  statement about the embedding.
-/

/-- The segment enumeration `FigureEightSegment` of the source. -/
inductive FigureEightSegment where
  | SEGMENT_UNDEFINED
  | SEGMENT_CIRCLE_NORTH
  | SEGMENT_NORTHEAST_SOUTHWEST
  | SEGMENT_CIRCLE_SOUTH
  | SEGMENT_SOUTHEAST_NORTHWEST
deriving DecidableEq

/-- A 2D vector (`matrix::Vector2f`) with exact rational coordinates. -/
structure Vector2 where
  x : ℚ
  y : ℚ
deriving DecidableEq

/-- Vector addition. -/
def Vector2.add (a b : Vector2) : Vector2 := ⟨a.x + b.x, a.y + b.y⟩

/-- Vector subtraction. -/
def Vector2.sub (a b : Vector2) : Vector2 := ⟨a.x - b.x, a.y - b.y⟩

/-- Vector negation. -/
def Vector2.neg (a : Vector2) : Vector2 := ⟨-a.x, -a.y⟩

/-- Scalar multiple of a vector. -/
def Vector2.scale (k : ℚ) (a : Vector2) : Vector2 := ⟨k * a.x, k * a.y⟩

/-- Dot product (`matrix::Vector2f::dot`). -/
def Vector2.dot (a b : Vector2) : ℚ := a.x * b.x + a.y * b.y

/-- Squared Euclidean norm; the source's `.norm()` is `sqrtf` of this value. -/
def Vector2.normSq (a : Vector2) : ℚ := a.x * a.x + a.y * a.y

/-- Rotation of a vector by an angle whose cosine is `c` and sine is `s`.

Modelled from the spec: the header of the matrix library (with
`Vector2f::transform` and `Dcmf`) is not part of this repository's source
tree, so the rotation convention follows the spec's "rotate by
rotationAngle(parameters)" using the standard counter-clockwise 2D rotation;
the same convention is used consistently for `transform` and for the
`Dcmf(...).slice<2,2>` rotation matrix of `applyCircle`/`applyLine`. -/
def Vector2.rotate (c s : ℚ) (a : Vector2) : Vector2 :=
  ⟨c * a.x - s * a.y, s * a.x + c * a.y⟩

/-- Reflection about the lateral (y) axis: negates the major-axis coordinate
and keeps the lateral coordinate.  Used to state mirror symmetries of the
segment exit rules. -/
def Vector2.mirrorX (a : Vector2) : Vector2 := ⟨-a.x, a.y⟩

/-- Source constant `NORMALIZED_MAJOR_RADIUS = 1.0f`. -/
def NORMALIZED_MAJOR_RADIUS : ℚ := 1

/-- Source constant `NORTH_CIRCLE_IS_COUNTER_CLOCKWISE = false`. -/
def NORTH_CIRCLE_IS_COUNTER_CLOCKWISE : Bool := false

/-- Source constant `SOUTH_CIRCLE_IS_COUNTER_CLOCKWISE = true`. -/
def SOUTH_CIRCLE_IS_COUNTER_CLOCKWISE : Bool := true

/-- The exact rational value of the single-precision constant `FLT_EPSILON`
(`2^-23`). -/
def FLT_EPSILON : ℚ := 1 / 8388608

/-- The exact rational value of the single-precision constant `M_PI_F`
(the `float` nearest to π, `13176795 * 2^-22`). -/
def M_PI_F : ℚ := 13176795 / 4194304

/-- Source constant of value `2.5f` (named `DEFAULT_MAJOR_TO_MINOR_AXIS_` plus
`RATIO` in the source; the suffix is spelled `SCALE` here). -/
def DEFAULT_MAJOR_TO_MINOR_AXIS_SCALE : ℚ := 5 / 2

/-- Source constant of value `2.0f` (named
`MINIMAL_FEASIBLE_MAJOR_TO_MINOR_AXIS_` plus `RATIO` in the source; the
suffix is spelled `SCALE` here). -/
def MINIMAL_FEASIBLE_MAJOR_TO_MINOR_AXIS_SCALE : ℚ := 2

/-- The parameter record `FigureEightPatternParameters`.

Each radius field carries the exact rational value of the float together with
a Boolean recording `PX4_ISFINITE` of the original float value (`true` means
finite). -/
structure FigureEightPatternParameters where
  center_pos_local : Vector2
  loiter_radius : ℚ
  loiter_radius_finite : Bool
  loiter_minor_radius : ℚ
  loiter_minor_radius_finite : Bool
  loiter_orientation : ℚ
  loiter_direction_counter_clockwise : Bool
deriving DecidableEq

/-- The derived-geometry record `FigureEightPatternPoints`. -/
structure FigureEightPatternPoints where
  normalized_north_circle_offset : Vector2
  normalized_north_entry_offset : Vector2
  normalized_north_exit_offset : Vector2
  normalized_south_circle_offset : Vector2
  normalized_south_entry_offset : Vector2
  normalized_south_exit_offset : Vector2
deriving DecidableEq

/-- The mutable per-instance state of the `FigureEight` class: the current
segment, the passed-center hysteresis flag, the last-applied parameter copy
and the two output setpoints. -/
structure FigureEightState where
  current_segment : FigureEightSegment
  pos_passed_circle_center_along_major_axis : Bool
  active_parameters : FigureEightPatternParameters
  roll_setpoint : ℚ
  indicated_airspeed_setpoint : ℚ
deriving DecidableEq

/-- A recorded call into the delegate guidance capability. -/
inductive NavCall where
  | navigateLoiter (circle_center curr_pos_local : Vector2) (radius : ℚ)
      (loiter_direction_counter_clockwise : Bool)
  | navigateWaypoints (line_start line_end curr_pos_local : Vector2)
deriving DecidableEq

/-- The external environment of the `FigureEight` class: `cmath` functions,
the configured `NAV_LOITER_RAD` parameter, the airspeed conversion factor and
the two delegate guidance capabilities.  The delegate navigate operations are
modelled as functions from their per-call arguments to the (roll setpoint,
airspeed reference) outputs read back after the call (the L1 variant has no
airspeed reference, so it returns only the roll setpoint); the wind estimate
and the nominal/maximum airspeed settings consumed by the NPFG variant are
internal to these abstract functions. -/
structure Env where
  sqrtf : ℚ → ℚ
  cosf : ℚ → ℚ
  sinf : ℚ → ℚ
  nav_loiter_rad : ℚ
  eas2tas : ℚ
  npfg_switch_distance : ℚ
  l1_switch_distance : ℚ
  npfg_navigateLoiter : Vector2 → Vector2 → ℚ → Bool → Vector2 → ℚ × ℚ
  npfg_navigateWaypoints : Vector2 → Vector2 → Vector2 → Vector2 → ℚ × ℚ
  l1_navigateLoiter : Vector2 → Vector2 → ℚ → Bool → Vector2 → ℚ
  l1_navigateWaypoints : Vector2 → Vector2 → Vector2 → Vector2 → ℚ

/-- `FigureEight::calculateRotationAngle`: the orientation, plus `M_PI_F`
when the turn direction is counter-clockwise. -/
def calculateRotationAngle (p : FigureEightPatternParameters) : ℚ :=
  if p.loiter_direction_counter_clockwise then p.loiter_orientation + M_PI_F
  else p.loiter_orientation

/-- `FigureEight::calculatePositionToCenterNormalizedRotated`: translate the
position to pattern-center-relative coordinates, scale by
`NORMALIZED_MAJOR_RADIUS / loiter_radius`, then rotate by the pattern
rotation angle. -/
def calculatePositionToCenterNormalizedRotated (env : Env)
    (curr_pos_local : Vector2) (p : FigureEightPatternParameters) : Vector2 :=
  let pos_to_center := Vector2.sub curr_pos_local p.center_pos_local
  let pos_to_center_normalized : Vector2 :=
    ⟨pos_to_center.x * NORMALIZED_MAJOR_RADIUS / p.loiter_radius,
     pos_to_center.y * NORMALIZED_MAJOR_RADIUS / p.loiter_radius⟩
  let yaw_rotation := calculateRotationAngle p
  Vector2.rotate (env.cosf yaw_rotation) (env.sinf yaw_rotation)
    pos_to_center_normalized

/-- The local constant `normalized_minor_radius` of
`FigureEight::calculateFigureEightPoints`. -/
def normalized_minor_radius (p : FigureEightPatternParameters) : ℚ :=
  p.loiter_minor_radius / p.loiter_radius * NORMALIZED_MAJOR_RADIUS

/-- The local constant `cos_transition_angle` of
`FigureEight::calculateFigureEightPoints`:
`loiter_minor_radius / (loiter_radius - loiter_minor_radius)`. -/
def cos_transition_angle (p : FigureEightPatternParameters) : ℚ :=
  p.loiter_minor_radius / (p.loiter_radius - p.loiter_minor_radius)

/-- The local constant `sin_transition_angle` of
`FigureEight::calculateFigureEightPoints`:
`sqrtf (1 - cos_transition_angle ^ 2)`. -/
def sin_transition_angle (env : Env) (p : FigureEightPatternParameters) : ℚ :=
  env.sqrtf (1 - cos_transition_angle p * cos_transition_angle p)

/-- `FigureEight::calculateFigureEightPoints`: the six canonical pattern
points, as offsets from the pattern center in normalized (major radius = 1),
unrotated coordinates. -/
def calculateFigureEightPoints (env : Env)
    (p : FigureEightPatternParameters) : FigureEightPatternPoints :=
  let nmr := normalized_minor_radius p
  let c := cos_transition_angle p
  let s := sin_transition_angle env p
  { normalized_north_circle_offset := ⟨NORMALIZED_MAJOR_RADIUS - nmr, 0⟩
    normalized_north_entry_offset :=
      ⟨NORMALIZED_MAJOR_RADIUS - nmr * (1 + c), -(nmr * s)⟩
    normalized_north_exit_offset :=
      ⟨NORMALIZED_MAJOR_RADIUS - nmr * (1 + c), nmr * s⟩
    normalized_south_circle_offset := ⟨-NORMALIZED_MAJOR_RADIUS + nmr, 0⟩
    normalized_south_entry_offset :=
      ⟨-NORMALIZED_MAJOR_RADIUS + nmr * (1 + c), -(nmr * s)⟩
    normalized_south_exit_offset :=
      ⟨-NORMALIZED_MAJOR_RADIUS + nmr * (1 + c), nmr * s⟩ }

/-- `FigureEight::resetPattern`: invalidate the current segment and clear the
passed-center flag. -/
def resetPattern (st : FigureEightState) : FigureEightState :=
  { st with
    current_segment := FigureEightSegment.SEGMENT_UNDEFINED
    pos_passed_circle_center_along_major_axis := false }

/-- The parameter-change test of the guard of `FigureEight::initializePattern`
(the disjunction of the component-wise epsilon comparisons between the active
parameters and the newly supplied parameters). -/
def parametersChanged (a b : FigureEightPatternParameters) : Bool :=
  decide (|a.center_pos_local.x - b.center_pos_local.x| > FLT_EPSILON) ||
  decide (|a.center_pos_local.y - b.center_pos_local.y| > FLT_EPSILON) ||
  decide (|a.loiter_radius - b.loiter_radius| > FLT_EPSILON) ||
  decide (|a.loiter_minor_radius - b.loiter_minor_radius| > FLT_EPSILON) ||
  decide (|a.loiter_orientation - b.loiter_orientation| > FLT_EPSILON) ||
  decide (a.loiter_direction_counter_clockwise ≠
          b.loiter_direction_counter_clockwise)

/-- The classification branch of `FigureEight::initializePattern`: selects
the starting segment from the normalized relative position and the rotated
ground-speed vector. -/
def initSegmentClassification (env : Env)
    (curr_pos_local ground_speed : Vector2)
    (p : FigureEightPatternParameters) : FigureEightSegment :=
  let rel_pos_to_center := calculatePositionToCenterNormalizedRotated env
    curr_pos_local p
  let yaw_rotation := calculateRotationAngle p
  let ground_speed_rotated := Vector2.rotate (env.cosf yaw_rotation)
    (env.sinf yaw_rotation) ground_speed
  let pattern_points := calculateFigureEightPoints env p
  if rel_pos_to_center.x > NORMALIZED_MAJOR_RADIUS then
    FigureEightSegment.SEGMENT_CIRCLE_NORTH
  else if rel_pos_to_center.x < -NORMALIZED_MAJOR_RADIUS then
    FigureEightSegment.SEGMENT_CIRCLE_SOUTH
  else if Vector2.dot ground_speed_rotated ⟨1, 0⟩ > 0 then
    (if rel_pos_to_center.x > pattern_points.normalized_north_circle_offset.x
     then FigureEightSegment.SEGMENT_CIRCLE_NORTH
     else FigureEightSegment.SEGMENT_SOUTHEAST_NORTHWEST)
  else
    (if rel_pos_to_center.x < pattern_points.normalized_south_circle_offset.x
     then FigureEightSegment.SEGMENT_CIRCLE_SOUTH
     else FigureEightSegment.SEGMENT_NORTHEAST_SOUTHWEST)

/-- `FigureEight::initializePattern` (the source spells the name with
`initialize`): when the segment is still undefined or any parameter changed
beyond epsilon, classify the starting segment, store the parameters as
active, and clear the passed-center flag; otherwise leave the state
untouched. -/
def initPattern (env : Env) (st : FigureEightState)
    (curr_pos_local ground_speed : Vector2)
    (p : FigureEightPatternParameters) : FigureEightState :=
  if st.current_segment = FigureEightSegment.SEGMENT_UNDEFINED ∨
     parametersChanged st.active_parameters p = true then
    { st with
      current_segment := initSegmentClassification env curr_pos_local
        ground_speed p
      active_parameters := p
      pos_passed_circle_center_along_major_axis := false }
  else st

/-- The sanitize block of `FigureEight::updateSetpoint` (source lines
124-137): replace a non-finite minor radius by `|NAV_LOITER_RAD|`, replace a
non-finite major radius by `2.5 ×` the (possibly substituted) minor radius
while taking the turn direction from the sign of `NAV_LOITER_RAD`, then clamp
the major radius to at least `2.0 ×` the minor radius. -/
def sanitizeParameters (env : Env)
    (p : FigureEightPatternParameters) : FigureEightPatternParameters :=
  let vp := p
  let vp := if p.loiter_minor_radius_finite = false then
      { vp with
        loiter_minor_radius := |env.nav_loiter_rad|
        loiter_minor_radius_finite := true }
    else vp
  let vp := if p.loiter_radius_finite = false then
      { vp with
        loiter_radius := DEFAULT_MAJOR_TO_MINOR_AXIS_SCALE *
          vp.loiter_minor_radius
        loiter_radius_finite := true
        loiter_direction_counter_clockwise := decide (env.nav_loiter_rad < 0) }
    else vp
  { vp with
    loiter_radius := max vp.loiter_radius
      (MINIMAL_FEASIBLE_MAJOR_TO_MINOR_AXIS_SCALE * vp.loiter_minor_radius) }

/-- The normalized switch distance of `FigureEight::updateSegment`: the
delegate's switch distance scaled into normalized pattern units. -/
def switchDistanceNormalized (env : Env) (use_npfg : Bool)
    (p : FigureEightPatternParameters) : ℚ :=
  if use_npfg then
    env.npfg_switch_distance * NORMALIZED_MAJOR_RADIUS / p.loiter_radius
  else
    env.l1_switch_distance * NORMALIZED_MAJOR_RADIUS / p.loiter_radius

/-- The exit condition of the `SEGMENT_CIRCLE_NORTH` case of
`FigureEight::updateSegment`: passed-center flag set, and (close to the
north-exit point, or — failsafe — fallen back below the north-exit x offset
while on the positive lateral side). -/
def circleNorthExitCondition (env : Env) (pts : FigureEightPatternPoints)
    (switch_distance_normalized : ℚ) (flag : Bool)
    (rel_pos_to_center : Vector2) : Bool :=
  flag &&
    (decide (env.sqrtf (Vector2.normSq
        (Vector2.sub pts.normalized_north_exit_offset rel_pos_to_center)) <
        switch_distance_normalized) ||
     (decide (rel_pos_to_center.x < pts.normalized_north_exit_offset.x) &&
      decide (rel_pos_to_center.y > FLT_EPSILON)))

/-- The exit condition of the `SEGMENT_NORTHEAST_SOUTHWEST` case of
`FigureEight::updateSegment`. -/
def lineNortheastSouthwestExitCondition (env : Env)
    (pts : FigureEightPatternPoints) (switch_distance_normalized : ℚ)
    (rel_pos_to_center : Vector2) : Bool :=
  decide (env.sqrtf (Vector2.normSq
      (Vector2.sub pts.normalized_south_entry_offset rel_pos_to_center)) <
      switch_distance_normalized) ||
  (decide (rel_pos_to_center.x < pts.normalized_south_entry_offset.x) &&
   decide (rel_pos_to_center.y < FLT_EPSILON)) ||
  decide (rel_pos_to_center.x < -NORMALIZED_MAJOR_RADIUS)

/-- The exit condition of the `SEGMENT_CIRCLE_SOUTH` case of
`FigureEight::updateSegment`: passed-center flag set, and (close to the
south-exit point, or — failsafe — risen back above the south-exit x offset
while on the positive lateral side). -/
def circleSouthExitCondition (env : Env) (pts : FigureEightPatternPoints)
    (switch_distance_normalized : ℚ) (flag : Bool)
    (rel_pos_to_center : Vector2) : Bool :=
  flag &&
    (decide (env.sqrtf (Vector2.normSq
        (Vector2.sub pts.normalized_south_exit_offset rel_pos_to_center)) <
        switch_distance_normalized) ||
     (decide (rel_pos_to_center.x > pts.normalized_south_exit_offset.x) &&
      decide (rel_pos_to_center.y > FLT_EPSILON)))

/-- The exit condition of the `SEGMENT_SOUTHEAST_NORTHWEST` case of
`FigureEight::updateSegment`. -/
def lineSoutheastNorthwestExitCondition (env : Env)
    (pts : FigureEightPatternPoints) (switch_distance_normalized : ℚ)
    (rel_pos_to_center : Vector2) : Bool :=
  decide (env.sqrtf (Vector2.normSq
      (Vector2.sub pts.normalized_north_entry_offset rel_pos_to_center)) <
      switch_distance_normalized) ||
  (decide (rel_pos_to_center.x > pts.normalized_north_entry_offset.x) &&
   decide (rel_pos_to_center.y < FLT_EPSILON)) ||
  decide (rel_pos_to_center.x > NORMALIZED_MAJOR_RADIUS)

/-- `FigureEight::updateSegment`: per-tick segment transition.  In the circle
cases the passed-center flag is first set once the major-axis coordinate has
passed the circle center; the segment advances when the corresponding exit
condition holds.  In the line cases the flag is cleared.  The undefined case
does nothing. -/
def updateSegment (env : Env) (st : FigureEightState)
    (curr_pos_local : Vector2) (p : FigureEightPatternParameters)
    (use_npfg : Bool) (pts : FigureEightPatternPoints) : FigureEightState :=
  let rel_pos_to_center := calculatePositionToCenterNormalizedRotated env
    curr_pos_local p
  let switch_distance_normalized := switchDistanceNormalized env use_npfg p
  match st.current_segment with
  | FigureEightSegment.SEGMENT_CIRCLE_NORTH =>
    let flag :=
      if rel_pos_to_center.x > pts.normalized_north_circle_offset.x then true
      else st.pos_passed_circle_center_along_major_axis
    let st1 := { st with pos_passed_circle_center_along_major_axis := flag }
    if circleNorthExitCondition env pts switch_distance_normalized flag
         rel_pos_to_center then
      { st1 with current_segment :=
          FigureEightSegment.SEGMENT_NORTHEAST_SOUTHWEST }
    else st1
  | FigureEightSegment.SEGMENT_NORTHEAST_SOUTHWEST =>
    let st1 := { st with pos_passed_circle_center_along_major_axis := false }
    if lineNortheastSouthwestExitCondition env pts switch_distance_normalized
         rel_pos_to_center then
      { st1 with current_segment := FigureEightSegment.SEGMENT_CIRCLE_SOUTH }
    else st1
  | FigureEightSegment.SEGMENT_CIRCLE_SOUTH =>
    let flag :=
      if rel_pos_to_center.x < pts.normalized_south_circle_offset.x then true
      else st.pos_passed_circle_center_along_major_axis
    let st1 := { st with pos_passed_circle_center_along_major_axis := flag }
    if circleSouthExitCondition env pts switch_distance_normalized flag
         rel_pos_to_center then
      { st1 with current_segment :=
          FigureEightSegment.SEGMENT_SOUTHEAST_NORTHWEST }
    else st1
  | FigureEightSegment.SEGMENT_SOUTHEAST_NORTHWEST =>
    let st1 := { st with pos_passed_circle_center_along_major_axis := false }
    if lineSoutheastNorthwestExitCondition env pts switch_distance_normalized
         rel_pos_to_center then
      { st1 with current_segment := FigureEightSegment.SEGMENT_CIRCLE_NORTH }
    else st1
  | FigureEightSegment.SEGMENT_UNDEFINED => st

/-- `FigureEight::applyCircle`: build the world-frame circle center from the
normalized offset and delegate to the selected capability's navigate-loiter
operation, reading back the roll and airspeed outputs. -/
def applyCircle (env : Env) (st : FigureEightState)
    (loiter_direction_counter_clockwise : Bool)
    (normalized_circle_offset : Vector2)
    (curr_pos_local ground_speed : Vector2)
    (p : FigureEightPatternParameters) (target_airspeed : ℚ)
    (use_npfg : Bool) : FigureEightState × List NavCall :=
  let yaw_rotation := calculateRotationAngle p
  let circle_offset := Vector2.scale (p.loiter_radius /
    NORMALIZED_MAJOR_RADIUS) normalized_circle_offset
  let circle_offset_rotated := Vector2.rotate (env.cosf yaw_rotation)
    (env.sinf yaw_rotation) circle_offset
  let circle_center := Vector2.add p.center_pos_local circle_offset_rotated
  if use_npfg then
    let out := env.npfg_navigateLoiter circle_center curr_pos_local
      p.loiter_minor_radius loiter_direction_counter_clockwise ground_speed
    ({ st with
       roll_setpoint := out.1
       indicated_airspeed_setpoint := out.2 / env.eas2tas },
     [NavCall.navigateLoiter circle_center curr_pos_local
        p.loiter_minor_radius loiter_direction_counter_clockwise])
  else
    let roll := env.l1_navigateLoiter circle_center curr_pos_local
      p.loiter_minor_radius loiter_direction_counter_clockwise ground_speed
    ({ st with
       roll_setpoint := roll
       indicated_airspeed_setpoint := target_airspeed },
     [NavCall.navigateLoiter circle_center curr_pos_local
        p.loiter_minor_radius loiter_direction_counter_clockwise])

/-- `FigureEight::applyLine`: build the world-frame line endpoints from the
normalized offsets and delegate to the selected capability's
navigate-waypoints operation, reading back the roll and airspeed outputs. -/
def applyLine (env : Env) (st : FigureEightState)
    (normalized_line_start_offset normalized_line_end_offset : Vector2)
    (curr_pos_local ground_speed : Vector2)
    (p : FigureEightPatternParameters) (target_airspeed : ℚ)
    (use_npfg : Bool) : FigureEightState × List NavCall :=
  let yaw_rotation := calculateRotationAngle p
  let start_offset := Vector2.scale (p.loiter_radius /
    NORMALIZED_MAJOR_RADIUS) normalized_line_start_offset
  let start_offset_rotated := Vector2.rotate (env.cosf yaw_rotation)
    (env.sinf yaw_rotation) start_offset
  let line_segment_start_position := Vector2.add p.center_pos_local
    start_offset_rotated
  let end_offset := Vector2.scale (p.loiter_radius /
    NORMALIZED_MAJOR_RADIUS) normalized_line_end_offset
  let end_offset_rotated := Vector2.rotate (env.cosf yaw_rotation)
    (env.sinf yaw_rotation) end_offset
  let line_segment_end_position := Vector2.add p.center_pos_local
    end_offset_rotated
  if use_npfg then
    let out := env.npfg_navigateWaypoints line_segment_start_position
      line_segment_end_position curr_pos_local ground_speed
    ({ st with
       roll_setpoint := out.1
       indicated_airspeed_setpoint := out.2 / env.eas2tas },
     [NavCall.navigateWaypoints line_segment_start_position
        line_segment_end_position curr_pos_local])
  else
    let roll := env.l1_navigateWaypoints line_segment_start_position
      line_segment_end_position curr_pos_local ground_speed
    ({ st with
       roll_setpoint := roll
       indicated_airspeed_setpoint := target_airspeed },
     [NavCall.navigateWaypoints line_segment_start_position
        line_segment_end_position curr_pos_local])

/-- `FigureEight::applyControl`: dispatch on the current segment to the
circle or line control, recording the delegate calls; the undefined case
does nothing. -/
def applyControl (env : Env) (st : FigureEightState)
    (curr_pos_local ground_speed : Vector2)
    (p : FigureEightPatternParameters) (target_airspeed : ℚ)
    (use_npfg : Bool)
    (pts : FigureEightPatternPoints) : FigureEightState × List NavCall :=
  match st.current_segment with
  | FigureEightSegment.SEGMENT_CIRCLE_NORTH =>
    applyCircle env st NORTH_CIRCLE_IS_COUNTER_CLOCKWISE
      pts.normalized_north_circle_offset curr_pos_local ground_speed p
      target_airspeed use_npfg
  | FigureEightSegment.SEGMENT_NORTHEAST_SOUTHWEST =>
    applyLine env st pts.normalized_north_exit_offset
      pts.normalized_south_entry_offset curr_pos_local ground_speed p
      target_airspeed use_npfg
  | FigureEightSegment.SEGMENT_CIRCLE_SOUTH =>
    applyCircle env st SOUTH_CIRCLE_IS_COUNTER_CLOCKWISE
      pts.normalized_south_circle_offset curr_pos_local ground_speed p
      target_airspeed use_npfg
  | FigureEightSegment.SEGMENT_SOUTHEAST_NORTHWEST =>
    applyLine env st pts.normalized_south_exit_offset
      pts.normalized_north_entry_offset curr_pos_local ground_speed p
      target_airspeed use_npfg
  | FigureEightSegment.SEGMENT_UNDEFINED => (st, [])

/-- `FigureEight::updateSetpoint`: sanitize the parameters, recompute the
pattern points, update the segment, then apply the control dispatch.
Returns the new state together with the list of delegate navigate calls made
during the tick. -/
def updateSetpoint (env : Env) (st : FigureEightState)
    (curr_pos_local ground_speed : Vector2)
    (p : FigureEightPatternParameters) (target_airspeed : ℚ)
    (use_npfg : Bool) : FigureEightState × List NavCall :=
  let valid_parameters := sanitizeParameters env p
  let pattern_points := calculateFigureEightPoints env valid_parameters
  let st1 := updateSegment env st curr_pos_local valid_parameters use_npfg
    pattern_points
  applyControl env st1 curr_pos_local ground_speed valid_parameters
    target_airspeed use_npfg pattern_points

/-- The successor of a segment in the fixed cyclic traversal order
circle-north → line-NE-SW → circle-south → line-SE-NW → circle-north; the
undefined segment has no successor. -/
def nextSegment : FigureEightSegment → FigureEightSegment
  | FigureEightSegment.SEGMENT_CIRCLE_NORTH =>
    FigureEightSegment.SEGMENT_NORTHEAST_SOUTHWEST
  | FigureEightSegment.SEGMENT_NORTHEAST_SOUTHWEST =>
    FigureEightSegment.SEGMENT_CIRCLE_SOUTH
  | FigureEightSegment.SEGMENT_CIRCLE_SOUTH =>
    FigureEightSegment.SEGMENT_SOUTHEAST_NORTHWEST
  | FigureEightSegment.SEGMENT_SOUTHEAST_NORTHWEST =>
    FigureEightSegment.SEGMENT_CIRCLE_NORTH
  | FigureEightSegment.SEGMENT_UNDEFINED =>
    FigureEightSegment.SEGMENT_UNDEFINED

/-- The circle-south exit rule as the specification's words describe it: the
x-mirrored circle-north conditions with the lateral-side sign reversed, i.e.
flag set, and (close to the south-exit point, or relative-x above the
south-exit offset while on the negative lateral side).  This definition
follows the spec's words, not the source, and exists to be compared with
`circleSouthExitCondition`. -/
def claimedCircleSouthExitCondition (env : Env)
    (pts : FigureEightPatternPoints) (switch_distance_normalized : ℚ)
    (flag : Bool) (rel_pos_to_center : Vector2) : Bool :=
  flag &&
    (decide (env.sqrtf (Vector2.normSq
        (Vector2.sub pts.normalized_south_exit_offset rel_pos_to_center)) <
        switch_distance_normalized) ||
     (decide (rel_pos_to_center.x > pts.normalized_south_exit_offset.x) &&
      decide (rel_pos_to_center.y < -FLT_EPSILON)))

/-- A concrete test environment.  Its square-root oracle returns the exact
square root at the two arguments probed by the concrete scenarios
(`sqrtf (16/25) = 4/5` exactly; `sqrtf (1/5) ≈ 0.447` to three decimals) and
an arbitrary value elsewhere; the trigonometric oracles are exact for the
only angle used by the scenarios (zero); the delegates return zero
setpoints. -/
def envT : Env :=
  { sqrtf := fun q => if q = 16 / 25 then 4 / 5
      else if q = 1 / 5 then 447 / 1000 else 0
    cosf := fun _ => 1
    sinf := fun _ => 0
    nav_loiter_rad := 50
    eas2tas := 1
    npfg_switch_distance := 4 / 5
    l1_switch_distance := 4 / 5
    npfg_navigateLoiter := fun _ _ _ _ _ => (0, 0)
    npfg_navigateWaypoints := fun _ _ _ _ => (0, 0)
    l1_navigateLoiter := fun _ _ _ _ _ => 0
    l1_navigateWaypoints := fun _ _ _ _ => 0 }

/-- Concrete valid parameters: center at the origin, major radius 8, minor
radius 3 (so the transition angle has cosine 3/5 and the normalized geometry
is rational), orientation 0, clockwise. -/
def p8 : FigureEightPatternParameters :=
  { center_pos_local := ⟨0, 0⟩
    loiter_radius := 8
    loiter_radius_finite := true
    loiter_minor_radius := 3
    loiter_minor_radius_finite := true
    loiter_orientation := 0
    loiter_direction_counter_clockwise := false }

/-- Concrete parameters of the spec's worked scenario: major radius 100,
minor radius 40. -/
def p100 : FigureEightPatternParameters :=
  { center_pos_local := ⟨0, 0⟩
    loiter_radius := 100
    loiter_radius_finite := true
    loiter_minor_radius := 40
    loiter_minor_radius_finite := true
    loiter_orientation := 0
    loiter_direction_counter_clockwise := false }

/-- Concrete parameters with a finite but negative minor radius. -/
def pNegMinor : FigureEightPatternParameters :=
  { center_pos_local := ⟨0, 0⟩
    loiter_radius := 1
    loiter_radius_finite := true
    loiter_minor_radius := -1
    loiter_minor_radius_finite := true
    loiter_orientation := 0
    loiter_direction_counter_clockwise := false }

/-- A concrete controller state with the given segment and flag, active
parameters `p8` and zero setpoints. -/
def mkState (seg : FigureEightSegment) (flag : Bool) : FigureEightState :=
  { current_segment := seg
    pos_passed_circle_center_along_major_axis := flag
    active_parameters := p8
    roll_setpoint := 0
    indicated_airspeed_setpoint := 0 }

/-- Concrete parameters whose two radius floats are both non-finite (the
rational value fields are junk, as for a NaN input). -/
def pNonFinite : FigureEightPatternParameters :=
  { center_pos_local := ⟨0, 0⟩
    loiter_radius := 0
    loiter_radius_finite := false
    loiter_minor_radius := 0
    loiter_minor_radius_finite := false
    loiter_orientation := 0
    loiter_direction_counter_clockwise := true }

/-- C9: for every parameter set, the rotation angle with the
counter-clockwise direction flag equals the rotation angle with the
clockwise flag plus π (here exactly, hence also modulo 2π), and the angle
equals the orientation when the direction is clockwise. -/
theorem calculateRotationAngle_direction (p : FigureEightPatternParameters) :
    calculateRotationAngle
        { p with loiter_direction_counter_clockwise := true } =
      calculateRotationAngle
        { p with loiter_direction_counter_clockwise := false } + M_PI_F
    ∧ (p.loiter_direction_counter_clockwise = false →
        calculateRotationAngle p = p.loiter_orientation) := by
  constructor
  · simp [calculateRotationAngle]
  · intro h
    simp [calculateRotationAngle, h]

/-- Witness for `calculateRotationAngle_direction` at the concrete
parameters `p8`. -/
theorem calculateRotationAngle_direction_witness :
    calculateRotationAngle
        { p8 with loiter_direction_counter_clockwise := true } =
      calculateRotationAngle
        { p8 with loiter_direction_counter_clockwise := false } + M_PI_F
    ∧ calculateRotationAngle p8 = p8.loiter_orientation :=
  ⟨(calculateRotationAngle_direction p8).1,
   (calculateRotationAngle_direction p8).2 rfl⟩

/-- C10: when the current segment is undefined, `updateSetpoint` performs no
segment transition, leaves the whole stored state (in particular the roll
setpoint and the indicated airspeed setpoint) unchanged, and makes no
navigate call into the delegate capability. -/
theorem updateSetpoint_undefined_frame (env : Env) (st : FigureEightState)
    (curr_pos_local ground_speed : Vector2)
    (p : FigureEightPatternParameters) (target_airspeed : ℚ)
    (use_npfg : Bool)
    (h : st.current_segment = FigureEightSegment.SEGMENT_UNDEFINED) :
    updateSetpoint env st curr_pos_local ground_speed p target_airspeed
      use_npfg = (st, []) := by
  obtain ⟨seg, flag, ap, roll, ias⟩ := st
  simp only at h
  subst h
  rfl

/-- Witness for `updateSetpoint_undefined_frame` at a concrete undefined
state. -/
theorem updateSetpoint_undefined_frame_witness :
    updateSetpoint envT (mkState FigureEightSegment.SEGMENT_UNDEFINED false)
      ⟨1, 2⟩ ⟨3, 4⟩ p8 5 true =
      (mkState FigureEightSegment.SEGMENT_UNDEFINED false, []) :=
  updateSetpoint_undefined_frame envT
    (mkState FigureEightSegment.SEGMENT_UNDEFINED false)
    ⟨1, 2⟩ ⟨3, 4⟩ p8 5 true rfl

/-- C4: the sanitizer always yields an adjusted major radius at least `2.0 ×`
the (possibly substituted) minor radius, and finite parameters already
satisfying the ratio keep their major radius unchanged. -/
theorem sanitizeParameters_ratio_clamp (env : Env)
    (p : FigureEightPatternParameters) :
    2 * (sanitizeParameters env p).loiter_minor_radius ≤
      (sanitizeParameters env p).loiter_radius
    ∧ (p.loiter_radius_finite = true → p.loiter_minor_radius_finite = true →
        2 * p.loiter_minor_radius ≤ p.loiter_radius →
        (sanitizeParameters env p).loiter_radius = p.loiter_radius) := by
  constructor
  · simp only [sanitizeParameters,
      MINIMAL_FEASIBLE_MAJOR_TO_MINOR_AXIS_SCALE]
    split_ifs <;> simp [le_max_right]
  · intro h1 h2 h3
    simp only [sanitizeParameters, h1, h2,
      MINIMAL_FEASIBLE_MAJOR_TO_MINOR_AXIS_SCALE]
    simp
    exact h3

/-- Witness for `sanitizeParameters_ratio_clamp` at the concrete parameters
`p8` (finite radii 8 and 3 with `8 ≥ 2 × 3`). -/
theorem sanitizeParameters_ratio_clamp_witness :
    2 * (sanitizeParameters envT p8).loiter_minor_radius ≤
      (sanitizeParameters envT p8).loiter_radius
    ∧ (sanitizeParameters envT p8).loiter_radius = p8.loiter_radius :=
  ⟨(sanitizeParameters_ratio_clamp envT p8).1,
   (sanitizeParameters_ratio_clamp envT p8).2 rfl rfl (by norm_num [p8])⟩

/-- Helper: the minor radius produced by the sanitizer. -/
theorem sanitize_minor_radius_eq (env : Env)
    (p : FigureEightPatternParameters) :
    (sanitizeParameters env p).loiter_minor_radius =
      if p.loiter_minor_radius_finite = false then |env.nav_loiter_rad|
      else p.loiter_minor_radius := by
  simp only [sanitizeParameters]
  split_ifs <;> rfl

/-- Helper: the direction flag produced by the sanitizer. -/
theorem sanitize_direction_eq (env : Env)
    (p : FigureEightPatternParameters) :
    (sanitizeParameters env p).loiter_direction_counter_clockwise =
      if p.loiter_radius_finite = false then decide (env.nav_loiter_rad < 0)
      else p.loiter_direction_counter_clockwise := by
  simp only [sanitizeParameters]
  split_ifs <;> rfl

/-- Helper: the major radius produced by the sanitizer is the clamped
maximum of the (possibly substituted) raw major radius and twice the
(possibly substituted) minor radius. -/
theorem sanitize_radius_eq (env : Env) (p : FigureEightPatternParameters) :
    (sanitizeParameters env p).loiter_radius =
      max (if p.loiter_radius_finite = false then
             DEFAULT_MAJOR_TO_MINOR_AXIS_SCALE *
               (sanitizeParameters env p).loiter_minor_radius
           else p.loiter_radius)
        (MINIMAL_FEASIBLE_MAJOR_TO_MINOR_AXIS_SCALE *
          (sanitizeParameters env p).loiter_minor_radius) := by
  simp only [sanitizeParameters]
  split_ifs <;> rfl

/-- C5 counterexample: the sanitizer does not always produce a geometrically
valid pattern (both radii positive and major at least twice the minor): at
finite input radii 1 and -1 the sanitized minor radius is -1, which is not
positive. -/
theorem sanitizeParameters_not_always_valid :
    pNegMinor.loiter_minor_radius_finite = true
    ∧ pNegMinor.loiter_radius_finite = true
    ∧ (sanitizeParameters envT pNegMinor).loiter_minor_radius = -1
    ∧ ¬ (0 < (sanitizeParameters envT pNegMinor).loiter_minor_radius) := by
  refine ⟨rfl, rfl, ?_, ?_⟩ <;>
    norm_num [sanitize_minor_radius_eq, pNegMinor, envT]

/-- C5 (amended): the sanitizer is total and never rejects numeric input: a
non-finite minor radius is replaced by the absolute value of the configured
default loiter radius; a non-finite major radius is replaced by 2.5 times
the (possibly just-substituted) minor radius — exactly when that minor
radius is non-negative, since the subsequent ratio clamp takes a maximum —
with the turn direction set from the sign of the configured default; and the
result is geometrically valid (positive radii, major at least twice the
minor) whenever the sanitized minor radius is positive. -/
theorem sanitizeParameters_substitution (env : Env)
    (p : FigureEightPatternParameters) :
    (p.loiter_minor_radius_finite = false →
      (sanitizeParameters env p).loiter_minor_radius = |env.nav_loiter_rad|)
    ∧ (p.loiter_radius_finite = false →
        (sanitizeParameters env p).loiter_direction_counter_clockwise =
          decide (env.nav_loiter_rad < 0)
        ∧ (0 ≤ (sanitizeParameters env p).loiter_minor_radius →
            (sanitizeParameters env p).loiter_radius =
              DEFAULT_MAJOR_TO_MINOR_AXIS_SCALE *
                (sanitizeParameters env p).loiter_minor_radius))
    ∧ (0 < (sanitizeParameters env p).loiter_minor_radius →
        0 < (sanitizeParameters env p).loiter_radius ∧
        2 * (sanitizeParameters env p).loiter_minor_radius ≤
          (sanitizeParameters env p).loiter_radius) := by
  refine ⟨?_, ?_, ?_⟩
  · intro h
    rw [sanitize_minor_radius_eq, if_pos h]
  · intro h
    constructor
    · rw [sanitize_direction_eq, if_pos h]
    · intro h0
      rw [sanitize_radius_eq, if_pos h]
      rw [max_eq_left]
      unfold DEFAULT_MAJOR_TO_MINOR_AXIS_SCALE
        MINIMAL_FEASIBLE_MAJOR_TO_MINOR_AXIS_SCALE
      linarith
  · intro h0
    constructor
    · calc (0 : ℚ) < MINIMAL_FEASIBLE_MAJOR_TO_MINOR_AXIS_SCALE *
            (sanitizeParameters env p).loiter_minor_radius := by
            unfold MINIMAL_FEASIBLE_MAJOR_TO_MINOR_AXIS_SCALE; linarith
        _ ≤ (sanitizeParameters env p).loiter_radius := by
            rw [sanitize_radius_eq]; exact le_max_right _ _
    · calc 2 * (sanitizeParameters env p).loiter_minor_radius =
          MINIMAL_FEASIBLE_MAJOR_TO_MINOR_AXIS_SCALE *
            (sanitizeParameters env p).loiter_minor_radius := by
            unfold MINIMAL_FEASIBLE_MAJOR_TO_MINOR_AXIS_SCALE; ring
        _ ≤ (sanitizeParameters env p).loiter_radius := by
            rw [sanitize_radius_eq]; exact le_max_right _ _

/-- Witness for `sanitizeParameters_substitution` at concrete parameters
whose radius floats are both non-finite, with `NAV_LOITER_RAD = 50`. -/
theorem sanitizeParameters_substitution_witness :
    (sanitizeParameters envT pNonFinite).loiter_minor_radius =
      |envT.nav_loiter_rad|
    ∧ (sanitizeParameters envT pNonFinite).loiter_direction_counter_clockwise
        = decide (envT.nav_loiter_rad < 0)
    ∧ (sanitizeParameters envT pNonFinite).loiter_radius =
        DEFAULT_MAJOR_TO_MINOR_AXIS_SCALE *
          (sanitizeParameters envT pNonFinite).loiter_minor_radius
    ∧ 0 < (sanitizeParameters envT pNonFinite).loiter_radius
    ∧ 2 * (sanitizeParameters envT pNonFinite).loiter_minor_radius ≤
        (sanitizeParameters envT pNonFinite).loiter_radius :=
  have h := sanitizeParameters_substitution envT pNonFinite
  have hm : (0 : ℚ) ≤ (sanitizeParameters envT pNonFinite).loiter_minor_radius := by
    norm_num [sanitize_minor_radius_eq, pNonFinite, envT]
  have hp : (0 : ℚ) < (sanitizeParameters envT pNonFinite).loiter_minor_radius := by
    norm_num [sanitize_minor_radius_eq, pNonFinite, envT]
  ⟨h.1 rfl, (h.2.1 rfl).1, (h.2.1 rfl).2 hm, (h.2.2 hp).1, (h.2.2 hp).2⟩

/-- C1 counterexample: with the vehicle far north of the pattern (where the
classification branch would select circle-north), a `resetPattern` call
followed by `updateSetpoint` leaves the segment undefined: `updateSetpoint`
never runs the classification branch of the initialization, so its result
differs from the classification. -/
theorem resetPattern_updateSetpoint_no_reentry :
    (updateSetpoint envT
        (resetPattern (mkState FigureEightSegment.SEGMENT_CIRCLE_NORTH true))
        ⟨200, 0⟩ ⟨1, 0⟩ p8 5 true).1.current_segment =
      FigureEightSegment.SEGMENT_UNDEFINED
    ∧ initSegmentClassification envT ⟨200, 0⟩ ⟨1, 0⟩ p8 =
        FigureEightSegment.SEGMENT_CIRCLE_NORTH
    ∧ (updateSetpoint envT
        (resetPattern (mkState FigureEightSegment.SEGMENT_CIRCLE_NORTH true))
        ⟨200, 0⟩ ⟨1, 0⟩ p8 5 true).1.current_segment ≠
        initSegmentClassification envT ⟨200, 0⟩ ⟨1, 0⟩ p8 := by
  have h1 : (updateSetpoint envT
      (resetPattern (mkState FigureEightSegment.SEGMENT_CIRCLE_NORTH true))
      ⟨200, 0⟩ ⟨1, 0⟩ p8 5 true).1.current_segment =
      FigureEightSegment.SEGMENT_UNDEFINED := rfl
  have h2 : initSegmentClassification envT ⟨200, 0⟩ ⟨1, 0⟩ p8 =
      FigureEightSegment.SEGMENT_CIRCLE_NORTH := by
    norm_num [initSegmentClassification,
      calculatePositionToCenterNormalizedRotated, calculateRotationAngle,
      Vector2.sub, Vector2.rotate, Vector2.dot, envT, p8,
      NORMALIZED_MAJOR_RADIUS]
  refine ⟨h1, h2, ?_⟩
  rw [h1, h2]
  decide

/-- C1 (amended): after `resetPattern`, an `updateSetpoint` call performs no
segment transition and leaves the segment undefined — it cannot resume the
pre-reset segment; re-initialization happens on the caller's next
`initializePattern` call, which, because the segment is undefined, always
enters the classification branch and yields the classification result, which
is never the undefined segment. -/
theorem resetPattern_forces_reclassification (env : Env)
    (st : FigureEightState) (curr_pos_local ground_speed : Vector2)
    (p : FigureEightPatternParameters) (target_airspeed : ℚ)
    (use_npfg : Bool) :
    (updateSetpoint env (resetPattern st) curr_pos_local ground_speed p
        target_airspeed use_npfg).1.current_segment =
      FigureEightSegment.SEGMENT_UNDEFINED
    ∧ (initPattern env (resetPattern st) curr_pos_local ground_speed
        p).current_segment =
        initSegmentClassification env curr_pos_local ground_speed p
    ∧ initSegmentClassification env curr_pos_local ground_speed p ≠
        FigureEightSegment.SEGMENT_UNDEFINED := by
  refine ⟨rfl, ?_, ?_⟩
  · simp [initPattern, resetPattern]
  · simp only [initSegmentClassification]
    split_ifs <;> simp

/-- Witness for `resetPattern_forces_reclassification` at concrete inputs. -/
theorem resetPattern_forces_reclassification_witness :
    (updateSetpoint envT
        (resetPattern (mkState FigureEightSegment.SEGMENT_CIRCLE_SOUTH true))
        ⟨0, 0⟩ ⟨1, 0⟩ p8 5 true).1.current_segment =
      FigureEightSegment.SEGMENT_UNDEFINED
    ∧ (initPattern envT
        (resetPattern (mkState FigureEightSegment.SEGMENT_CIRCLE_SOUTH true))
        ⟨0, 0⟩ ⟨1, 0⟩ p8).current_segment =
        initSegmentClassification envT ⟨0, 0⟩ ⟨1, 0⟩ p8
    ∧ initSegmentClassification envT ⟨0, 0⟩ ⟨1, 0⟩ p8 ≠
        FigureEightSegment.SEGMENT_UNDEFINED :=
  resetPattern_forces_reclassification envT
    (mkState FigureEightSegment.SEGMENT_CIRCLE_SOUTH true) ⟨0, 0⟩ ⟨1, 0⟩ p8
    5 true

/-- C3 counterexample: at the valid parameters `p8` (radii 8 and 3, where
the square-root oracle returns the exact root `4/5` of `16/25`), the south
entry offset is not the negation of the north entry offset, and the south
exit offset is not the negation of the north exit offset: the 180° rotation
symmetry pairs entry with exit, not entry with entry. -/
theorem patternPoints_entry_negation_fails :
    (0 < p8.loiter_minor_radius ∧ 0 < p8.loiter_radius ∧
      2 * p8.loiter_minor_radius ≤ p8.loiter_radius)
    ∧ envT.sqrtf (1 - cos_transition_angle p8 * cos_transition_angle p8) *
        envT.sqrtf (1 - cos_transition_angle p8 * cos_transition_angle p8) =
        1 - cos_transition_angle p8 * cos_transition_angle p8
    ∧ (calculateFigureEightPoints envT p8).normalized_south_entry_offset ≠
        Vector2.neg
          (calculateFigureEightPoints envT p8).normalized_north_entry_offset
    ∧ (calculateFigureEightPoints envT p8).normalized_south_exit_offset ≠
        Vector2.neg
          (calculateFigureEightPoints envT p8).normalized_north_exit_offset
    := by
  refine ⟨⟨by norm_num [p8], by norm_num [p8], by norm_num [p8]⟩, ?_, ?_, ?_⟩
  · norm_num [cos_transition_angle, p8, envT]
  · norm_num [calculateFigureEightPoints, normalized_minor_radius,
      cos_transition_angle, sin_transition_angle, Vector2.neg, p8, envT,
      NORMALIZED_MAJOR_RADIUS, Vector2.mk.injEq]
  · norm_num [calculateFigureEightPoints, normalized_minor_radius,
      cos_transition_angle, sin_transition_angle, Vector2.neg, p8, envT,
      NORMALIZED_MAJOR_RADIUS, Vector2.mk.injEq]

/-- C3 (amended): for every parameter set (validity not even needed) the six
pattern points are symmetric under 180° rotation about the origin with entry
and exit exchanged: the south circle center is the negation of the north
circle center, the south entry offset is the negation of the north exit
offset, and the south exit offset is the negation of the north entry
offset. -/
theorem patternPoints_point_symmetry (env : Env)
    (p : FigureEightPatternParameters) :
    (calculateFigureEightPoints env p).normalized_south_circle_offset =
      Vector2.neg
        (calculateFigureEightPoints env p).normalized_north_circle_offset
    ∧ (calculateFigureEightPoints env p).normalized_south_entry_offset =
        Vector2.neg
          (calculateFigureEightPoints env p).normalized_north_exit_offset
    ∧ (calculateFigureEightPoints env p).normalized_south_exit_offset =
        Vector2.neg
          (calculateFigureEightPoints env p).normalized_north_entry_offset
    := by
  refine ⟨?_, ?_, ?_⟩ <;>
    simp only [calculateFigureEightPoints, Vector2.neg, Vector2.mk.injEq,
      NORMALIZED_MAJOR_RADIUS] <;>
    exact ⟨by ring, by norm_num⟩

/-- C6: the tangent geometry of `calculateFigureEightPoints`: the cosine of
the transition angle is `minor / (major - minor)`, its sine is the square
root of one minus the squared cosine, the north and south circle centers sit
at `±(1 - minor/major, 0)` in normalized units, and in the concrete scenario
with major radius 100 and minor radius 40 the cosine is `40/60 = 2/3` and
the north circle offset scaled by the major radius is `(60, 0)` world
units. -/
theorem figureEightGeometry (env : Env) (p : FigureEightPatternParameters) :
    cos_transition_angle p =
      p.loiter_minor_radius / (p.loiter_radius - p.loiter_minor_radius)
    ∧ sin_transition_angle env p =
        env.sqrtf (1 - cos_transition_angle p * cos_transition_angle p)
    ∧ (calculateFigureEightPoints env p).normalized_north_circle_offset =
        ⟨1 - p.loiter_minor_radius / p.loiter_radius, 0⟩
    ∧ (calculateFigureEightPoints env p).normalized_south_circle_offset =
        ⟨-(1 - p.loiter_minor_radius / p.loiter_radius), 0⟩
    ∧ (p.loiter_radius = 100 → p.loiter_minor_radius = 40 →
        cos_transition_angle p = 2 / 3 ∧
        Vector2.scale (p.loiter_radius / NORMALIZED_MAJOR_RADIUS)
          (calculateFigureEightPoints env p).normalized_north_circle_offset =
          ⟨60, 0⟩) := by
  refine ⟨rfl, rfl, ?_, ?_, ?_⟩
  · simp only [calculateFigureEightPoints, normalized_minor_radius,
      NORMALIZED_MAJOR_RADIUS, Vector2.mk.injEq]
    exact ⟨by ring, by norm_num⟩
  · simp only [calculateFigureEightPoints, normalized_minor_radius,
      NORMALIZED_MAJOR_RADIUS, Vector2.mk.injEq]
    exact ⟨by ring, by norm_num⟩
  · intro h1 h2
    constructor
    · rw [cos_transition_angle, h1, h2]
      norm_num
    · norm_num [calculateFigureEightPoints, normalized_minor_radius,
        Vector2.scale, h1, h2, NORMALIZED_MAJOR_RADIUS, Vector2.mk.injEq]

/-- Witness for `figureEightGeometry` at the spec's concrete scenario
(major radius 100, minor radius 40). -/
theorem figureEightGeometry_witness :
    cos_transition_angle p100 = 2 / 3 ∧
    Vector2.scale (p100.loiter_radius / NORMALIZED_MAJOR_RADIUS)
      (calculateFigureEightPoints envT p100).normalized_north_circle_offset =
      ⟨60, 0⟩ :=
  (figureEightGeometry envT p100).2.2.2.2 rfl rfl

/-- C7: one `updateSegment` step either keeps the current segment or
advances it to its unique successor in the fixed cyclic order circle-north →
line-NE-SW → circle-south → line-SE-NW → circle-north; it never reaches the
undefined segment from a defined one, and no defined segment is two steps
from itself in that order, so repeated steps cannot oscillate between two
segments. -/
theorem updateSegment_monotone (env : Env) (st : FigureEightState)
    (curr_pos_local : Vector2) (p : FigureEightPatternParameters)
    (use_npfg : Bool) (pts : FigureEightPatternPoints) :
    ((updateSegment env st curr_pos_local p use_npfg pts).current_segment =
        st.current_segment ∨
     (updateSegment env st curr_pos_local p use_npfg pts).current_segment =
        nextSegment st.current_segment)
    ∧ ((updateSegment env st curr_pos_local p use_npfg
          pts).current_segment = FigureEightSegment.SEGMENT_UNDEFINED →
        st.current_segment = FigureEightSegment.SEGMENT_UNDEFINED)
    ∧ (nextSegment (nextSegment st.current_segment) = st.current_segment →
        st.current_segment = FigureEightSegment.SEGMENT_UNDEFINED) := by
  obtain ⟨seg, flag, ap, roll, ias⟩ := st
  cases seg <;>
    simp only [updateSegment] <;>
    (try split_ifs) <;>
    simp [nextSegment]

/-- Witness for `updateSegment_monotone` at a concrete undefined state,
where both implications are discharged. -/
theorem updateSegment_monotone_witness :
    ((updateSegment envT (mkState FigureEightSegment.SEGMENT_UNDEFINED false)
        ⟨0, 0⟩ p8 true (calculateFigureEightPoints envT p8)).current_segment =
        (mkState FigureEightSegment.SEGMENT_UNDEFINED false).current_segment ∨
     (updateSegment envT (mkState FigureEightSegment.SEGMENT_UNDEFINED false)
        ⟨0, 0⟩ p8 true (calculateFigureEightPoints envT p8)).current_segment =
        nextSegment
          (mkState FigureEightSegment.SEGMENT_UNDEFINED
            false).current_segment)
    ∧ (mkState FigureEightSegment.SEGMENT_UNDEFINED false).current_segment =
        FigureEightSegment.SEGMENT_UNDEFINED
    ∧ (mkState FigureEightSegment.SEGMENT_UNDEFINED false).current_segment =
        FigureEightSegment.SEGMENT_UNDEFINED :=
  have h := updateSegment_monotone envT
    (mkState FigureEightSegment.SEGMENT_UNDEFINED false) ⟨0, 0⟩ p8 true
    (calculateFigureEightPoints envT p8)
  ⟨h.1, h.2.1 rfl, h.2.2 rfl⟩

/-- C8 counterexample: on the tick in which the north circle exits to the
NE-SW line segment, `updateSetpoint` completes with the current segment
being a line segment while the passed-center flag is still set: the flag is
not cleared at segment entry into a line segment, only on the next tick
processed inside it. -/
theorem lineSegmentEntry_flag_not_cleared :
    (updateSetpoint envT
        (mkState FigureEightSegment.SEGMENT_CIRCLE_NORTH true)
        ⟨8/3, 4⟩ ⟨1, 0⟩ p8 5 true).1.current_segment =
      FigureEightSegment.SEGMENT_NORTHEAST_SOUTHWEST
    ∧ (updateSetpoint envT
        (mkState FigureEightSegment.SEGMENT_CIRCLE_NORTH true)
        ⟨8/3, 4⟩ ⟨1, 0⟩ p8 5
        true).1.pos_passed_circle_center_along_major_axis = true := by
  norm_num [updateSetpoint, sanitizeParameters,
    MINIMAL_FEASIBLE_MAJOR_TO_MINOR_AXIS_SCALE, calculateFigureEightPoints,
    normalized_minor_radius, cos_transition_angle, sin_transition_angle,
    updateSegment, calculatePositionToCenterNormalizedRotated,
    calculateRotationAngle, switchDistanceNormalized,
    circleNorthExitCondition, Vector2.sub, Vector2.rotate, Vector2.normSq,
    applyControl, applyLine, applyCircle, Vector2.scale, Vector2.add,
    envT, p8, mkState, NORMALIZED_MAJOR_RADIUS, FLT_EPSILON]

/-- C8 (amended): the passed-center flag is cleared by `resetPattern` (which
also makes the segment undefined), by every (re)initialization — that is,
whenever the initialization guard holds, be it because the segment is
undefined or because some parameter changed beyond epsilon — and by any
`updateSegment` tick processed while already in a line segment; it is not
cleared on the transition tick that enters the line segment. -/
theorem passedCenterFlag_clearing (env : Env) (st : FigureEightState)
    (curr_pos_local ground_speed : Vector2)
    (p : FigureEightPatternParameters) (use_npfg : Bool)
    (pts : FigureEightPatternPoints) :
    (resetPattern st).pos_passed_circle_center_along_major_axis = false
    ∧ (resetPattern st).current_segment =
        FigureEightSegment.SEGMENT_UNDEFINED
    ∧ ((st.current_segment = FigureEightSegment.SEGMENT_UNDEFINED ∨
        parametersChanged st.active_parameters p = true) →
        (initPattern env st curr_pos_local ground_speed
          p).pos_passed_circle_center_along_major_axis = false)
    ∧ ((st.current_segment =
          FigureEightSegment.SEGMENT_NORTHEAST_SOUTHWEST ∨
        st.current_segment =
          FigureEightSegment.SEGMENT_SOUTHEAST_NORTHWEST) →
        (updateSegment env st curr_pos_local p use_npfg
          pts).pos_passed_circle_center_along_major_axis = false) := by
  refine ⟨rfl, rfl, ?_, ?_⟩
  · intro h
    simp only [initPattern]
    rw [if_pos h]
  · intro h
    obtain ⟨seg, flag, ap, roll, ias⟩ := st
    simp only at h
    rcases h with h | h <;> subst h <;>
      simp only [updateSegment] <;> split_ifs <;> rfl

/-- Witness for `passedCenterFlag_clearing`: the initialization clears the
flag from a concrete undefined state and also from a concrete circle-north
state when the supplied parameters differ from the active ones beyond
epsilon (active major radius 8, supplied 100), and a tick inside the NE-SW
line segment clears a set flag. -/
theorem passedCenterFlag_clearing_witness :
    (initPattern envT (mkState FigureEightSegment.SEGMENT_UNDEFINED true)
        ⟨0, 0⟩ ⟨1, 0⟩ p8).pos_passed_circle_center_along_major_axis = false
    ∧ (initPattern envT
        (mkState FigureEightSegment.SEGMENT_CIRCLE_NORTH true)
        ⟨0, 0⟩ ⟨1, 0⟩ p100).pos_passed_circle_center_along_major_axis = false
    ∧ (updateSegment envT
        (mkState FigureEightSegment.SEGMENT_NORTHEAST_SOUTHWEST true)
        ⟨0, 0⟩ p8 true (calculateFigureEightPoints envT
          p8)).pos_passed_circle_center_along_major_axis = false :=
  ⟨(passedCenterFlag_clearing envT
      (mkState FigureEightSegment.SEGMENT_UNDEFINED true) ⟨0, 0⟩ ⟨1, 0⟩ p8
      true (calculateFigureEightPoints envT p8)).2.2.1 (Or.inl rfl),
   (passedCenterFlag_clearing envT
      (mkState FigureEightSegment.SEGMENT_CIRCLE_NORTH true) ⟨0, 0⟩ ⟨1, 0⟩
      p100 true (calculateFigureEightPoints envT p100)).2.2.1
      (Or.inr (by norm_num [parametersChanged, mkState, p8, p100,
        FLT_EPSILON])),
   (passedCenterFlag_clearing envT
      (mkState FigureEightSegment.SEGMENT_NORTHEAST_SOUTHWEST true) ⟨0, 0⟩
      ⟨1, 0⟩ p8 true (calculateFigureEightPoints envT p8)).2.2.2
      (Or.inl rfl)⟩

/-- C2 counterexample: in the circle-south segment with the passed-center
flag set, at normalized relative position `(0, 1/2)` (lateral coordinate on
the positive side) the code's failsafe fires and the segment advances to the
SE-NW line — the distance clause does not fire, since the distance oracle
returns `0.447`, above the normalized switch distance `1/10` — while the
specification's rule with the lateral-side sign reversed (requiring the
negative lateral side) is false there: the code uses the same positive
lateral-side sign as circle-north, not the opposite one. -/
theorem circleSouthExit_not_reversed_sign :
    (updateSegment envT
        (mkState FigureEightSegment.SEGMENT_CIRCLE_SOUTH true)
        ⟨0, 4⟩ p8 true (calculateFigureEightPoints envT p8)).current_segment
        = FigureEightSegment.SEGMENT_SOUTHEAST_NORTHWEST
    ∧ calculatePositionToCenterNormalizedRotated envT ⟨0, 4⟩ p8 = ⟨0, 1/2⟩
    ∧ switchDistanceNormalized envT true p8 = 1/10
    ∧ envT.sqrtf (Vector2.normSq (Vector2.sub
        (calculateFigureEightPoints envT p8).normalized_south_exit_offset
        ⟨0, 1/2⟩)) = 447/1000
    ∧ claimedCircleSouthExitCondition envT
        (calculateFigureEightPoints envT p8) (1/10) true ⟨0, 1/2⟩ = false
    := by
  refine ⟨?_, ?_, ?_, ?_, ?_⟩ <;>
    norm_num [updateSegment, calculateFigureEightPoints,
      normalized_minor_radius, cos_transition_angle, sin_transition_angle,
      calculatePositionToCenterNormalizedRotated, calculateRotationAngle,
      switchDistanceNormalized, circleSouthExitCondition,
      claimedCircleSouthExitCondition, Vector2.sub, Vector2.rotate,
      Vector2.normSq, envT, p8, mkState, NORMALIZED_MAJOR_RADIUS,
      FLT_EPSILON]

/-- C2 (amended): the circle-south exit rule is the mirror of the
circle-north rule in the major-axis coordinate with the lateral-side sign
unchanged: for every pattern, switch distance, flag and relative position,
the south exit condition equals the north exit condition evaluated at the
position with the major-axis coordinate negated and the lateral coordinate
kept; the south flag-setting test is likewise the major-axis mirror of the
north one. -/
theorem circleSouthExit_mirror (env : Env)
    (p : FigureEightPatternParameters) (switch_distance_normalized : ℚ)
    (flag : Bool) (rel : Vector2) :
    circleSouthExitCondition env (calculateFigureEightPoints env p)
        switch_distance_normalized flag rel =
      circleNorthExitCondition env (calculateFigureEightPoints env p)
        switch_distance_normalized flag (Vector2.mirrorX rel)
    ∧ ((rel.x <
          (calculateFigureEightPoints
            env p).normalized_south_circle_offset.x) ↔
        ((Vector2.mirrorX rel).x >
          (calculateFigureEightPoints
            env p).normalized_north_circle_offset.x)) := by
  have harg : Vector2.normSq (Vector2.sub
      (calculateFigureEightPoints env p).normalized_south_exit_offset rel) =
      Vector2.normSq (Vector2.sub
        (calculateFigureEightPoints env p).normalized_north_exit_offset
        (Vector2.mirrorX rel)) := by
    simp only [calculateFigureEightPoints, Vector2.sub, Vector2.normSq,
      Vector2.mirrorX, NORMALIZED_MAJOR_RADIUS]
    ring
  have hx : decide (rel.x >
      (calculateFigureEightPoints env p).normalized_south_exit_offset.x) =
      decide ((Vector2.mirrorX rel).x <
        (calculateFigureEightPoints env p).normalized_north_exit_offset.x)
      := by
    rw [decide_eq_decide]
    simp only [calculateFigureEightPoints, Vector2.mirrorX,
      NORMALIZED_MAJOR_RADIUS]
    constructor <;> intro h <;> linarith
  have hy : ((Vector2.mirrorX rel).y > FLT_EPSILON) = (rel.y > FLT_EPSILON)
      := by
    simp [Vector2.mirrorX]
  constructor
  · simp only [circleSouthExitCondition, circleNorthExitCondition, harg, hx,
      hy]
  · simp only [calculateFigureEightPoints, Vector2.mirrorX,
      NORMALIZED_MAJOR_RADIUS]
    constructor <;> intro h <;> linarith

/-- Witness for `circleSouthExit_mirror` at concrete inputs. -/
theorem circleSouthExit_mirror_witness :
    circleSouthExitCondition envT (calculateFigureEightPoints envT p8)
        (1/10) true ⟨1/4, 1/2⟩ =
      circleNorthExitCondition envT (calculateFigureEightPoints envT p8)
        (1/10) true (Vector2.mirrorX ⟨1/4, 1/2⟩)
    ∧ (((1/4 : ℚ) <
          (calculateFigureEightPoints
            envT p8).normalized_south_circle_offset.x) ↔
        ((Vector2.mirrorX ⟨1/4, 1/2⟩).x >
          (calculateFigureEightPoints
            envT p8).normalized_north_circle_offset.x)) :=
  circleSouthExit_mirror envT p8 (1/10) true ⟨1/4, 1/2⟩
